import Mathlib

/-!
Verification of the `DeltaWriter` write path (`be/src/olap/delta_writer.cpp`).

The development is a shallow embedding: the writer's member state becomes the
structure `DeltaWriter`, the externally visible side effects (transaction
registry, unused-rowset collector, metadata store, created directories,
caller-supplied tablet-info vector) become the structure `World`, and the
external collaborators (tablet manager, transaction manager's status, id
generator, rowset writer, memtable flush results, configuration) become the
oracle structure `Env`.  Each member function of the source becomes a pure
Lean function threading `DeltaWriter` and `World`.
-/

namespace DorisDW

/-- Statuses returned by the source file.  `err_other n` stands for any other
concrete `OLAPStatus` value produced by an external collaborator and
propagated unchanged by `RETURN_NOT_OK`. -/
inductive OLAPStatus where
  | success
  | err_table_not_found
  | err_rowset_generate_id_failed
  | err_rowset_writer_init
  | err_rowset_save_failed
  | err_other (code : Nat)
deriving DecidableEq

/-- The write request captured at construction (`WriteRequest`): ids, the
rollup-tracking flag and the tuple descriptor's slot names (`tuple_desc->slots()`,
only the column names matter to this file). -/
structure WriteRequest where
  tablet_id : Nat
  schema_hash : Nat
  partition_id : Nat
  txn_id : Nat
  load_id : Nat
  need_gen_rollup : Bool
  slots : List String
deriving DecidableEq

/-- A tablet as seen by this file: its identity, its schema's column names and
the target of an in-flight schema change if `get_schema_change_request`
reports one. -/
structure Tablet where
  tablet_id : Nat
  schema_hash : Nat
  columns : List String
  schema_change : Option (Nat × Nat)
deriving DecidableEq

/-- Key under which the transaction manager indexes a prepared transaction:
`(partition_id, txn_id, tablet_id, schema_hash)`. -/
structure TxnKey where
  partition_id : Nat
  txn_id : Nat
  tablet_id : Nat
  schema_hash : Nat
deriving DecidableEq

/-- The transaction key the writer uses for its primary tablet. -/
def primary_key (req : WriteRequest) : TxnKey :=
  { partition_id := req.partition_id, txn_id := req.txn_id,
    tablet_id := req.tablet_id, schema_hash := req.schema_hash }

/-- The transaction key the writer uses for the schema-change target tablet. -/
def related_key (req : WriteRequest) (tid2 sh2 : Nat) : TxnKey :=
  { partition_id := req.partition_id, txn_id := req.txn_id,
    tablet_id := tid2, schema_hash := sh2 }

/-- A built rowset (`_rowset_writer->build()`): its generated id and the rows
it accumulated. -/
structure Rowset where
  rowset_id : Nat
  rows : List (List Nat)
deriving DecidableEq

/-- The `AlphaRowsetWriter` as used here: the id fixed by its context and the
rows flushed into it so far. -/
structure RowsetWriter where
  rowset_id : Nat
  rows : List (List Nat)
deriving DecidableEq

/-- Modelled from the spec: the Row Buffer (`MemTable`).  Its implementation
file is not among the sources; per the spec it owns the rows routed through
the column index mapping into schema-column order, and its memory accounting
is an incremental estimate (kept as the oracle `Env.mem_usage`). -/
structure MemTable where
  rows : List (List Nat)
deriving DecidableEq

/-- Modelled from the spec: `MemTable::insert` maps the tuple's field values
through the column index mapping into schema-column order and adds the
resulting record to the buffer. -/
def MemTable.insert (col_ids : List Nat) (mt : MemTable) (tuple : List Nat) : MemTable :=
  { rows := mt.rows ++ [col_ids.map (fun i => tuple.getD i 0)] }

/-- `MemTable::flush` / `MemTable::close` hand the buffer's rows to the rowset
writer as one batch. -/
def flush_to (rw : RowsetWriter) (rows : List (List Nat)) : RowsetWriter :=
  { rw with rows := rw.rows ++ rows }

/-- The externally visible world: the transaction registry's contents, a log of
the registry calls made, the unused-rowset hand-offs (`nullptr` arguments are
recorded as `none`), the rowset ids saved by the metadata store, the pending
directories created, and the caller's tablet-info vector. -/
structure World where
  txns : List TxnKey
  prepare_calls : List TxnKey
  deleted : List TxnKey
  unused : List (Option Rowset)
  saved : List Nat
  created_dirs : List Nat
  tablet_infos : List (Nat × Nat)
deriving DecidableEq

/-- Behaviour of the external collaborators, fixed for one run. -/
structure Env where
  get_tablet : Nat → Nat → Option Tablet
  prepare_txn_st : TxnKey → OLAPStatus
  check_dir_existed : Nat → Bool
  create_dirs_st : Nat → OLAPStatus
  next_rowset_id : Option Nat
  rowset_writer_init_st : OLAPStatus
  mem_flush_st : OLAPStatus
  mem_close_st : OLAPStatus
  meta_save_st : Nat → OLAPStatus
  mem_usage : List (List Nat) → Nat
  write_buffer_size : Nat

/-- `TxnManager::prepare_txn`: the call is always logged; the registry gains
the key exactly when the manager reports success. -/
def log_prepare (env : Env) (w : World) (k : TxnKey) : World :=
  { w with prepare_calls := w.prepare_calls ++ [k],
           txns := if env.prepare_txn_st k = OLAPStatus.success then w.txns ++ [k] else w.txns }

/-- `TxnManager::delete_txn`: removes every entry under the key and logs the
call (the registry delete is idempotent). -/
def delete_txn (w : World) (k : TxnKey) : World :=
  { w with txns := w.txns.filter (fun x => x ≠ k),
           deleted := w.deleted ++ [k] }

/-- `StorageEngine::add_unused_rowset`: fire-and-forget hand-off; the source
passes the raw pointer, which may be null. -/
def add_unused_rowset (w : World) (r : Option Rowset) : World :=
  { w with unused := w.unused ++ [r] }

/-- The member state of one `DeltaWriter`, mirroring the constructor's
initializer list plus `_col_ids` and `_is_init` (the latter is declared in
`delta_writer.h`, not among the sources; the spec's `Created` state fixes it
initially false — see `open_writer`). -/
structure DeltaWriter where
  req : WriteRequest
  tablet : Option Tablet
  cur_rowset : Option Rowset
  related_rowset : Option Rowset
  related_tablet : Option Tablet
  rowset_writer : Option RowsetWriter
  mem_table : Option MemTable
  col_ids : List Nat
  is_init : Bool
  delta_written_success : Bool
deriving DecidableEq

/-- `DeltaWriter::open` plus the constructor.  Modelled from the spec for one
field: `_is_init` is initialized in the header (not among the sources); the
spec's `Created` state makes it false at construction. -/
def open_writer (req : WriteRequest) : DeltaWriter :=
  { req := req, tablet := none, cur_rowset := none, related_rowset := none,
    related_tablet := none, rowset_writer := none, mem_table := none,
    col_ids := [], is_init := false, delta_written_success := false }

/-- The column index mapping loop of `DeltaWriter::init`: for each schema
column in order, every slot whose name equals the column's name contributes
its index. -/
def build_col_ids (columns slots : List String) : List Nat :=
  (columns.map (fun c => (List.range slots.length).filter (fun i => slots.getD i "" = c))).flatten

/-- Result of an operation: a returned status with the resulting writer and
world, or a crash (a null-pointer dereference in the source, which is not a
returned status). -/
inductive StepResult where
  | ok (st : OLAPStatus) (dw : DeltaWriter) (w : World)
  | crash (dw : DeltaWriter) (w : World)
deriving DecidableEq

def StepResult.world : StepResult → World
  | .ok _ _ w => w
  | .crash _ w => w

def StepResult.writer : StepResult → DeltaWriter
  | .ok _ dw _ => dw
  | .crash dw _ => dw

def StepResult.ok_st : StepResult → Option OLAPStatus
  | .ok st _ _ => some st
  | .crash _ _ => none

def StepResult.is_crash : StepResult → Bool
  | .ok _ _ _ => false
  | .crash _ _ => true

/-- `DeltaWriter::init` (source lines 61-144): tablet lookup, primary-txn
prepare under the push lock, optional rollup detection (whose related-txn
prepare status the source ignores), pending-directory creation, rowset id
generation, rowset-writer construction, column index mapping, memtable
allocation, and finally `_is_init = true`. -/
def DeltaWriter.init (env : Env) (dw : DeltaWriter) (w : World) :
    OLAPStatus × DeltaWriter × World :=
  match env.get_tablet dw.req.tablet_id dw.req.schema_hash with
  | none => (OLAPStatus.err_table_not_found, { dw with tablet := none }, w)
  | some tablet =>
    let dw1 := { dw with tablet := some tablet }
    let st1 := env.prepare_txn_st (primary_key dw.req)
    let w1 := log_prepare env w (primary_key dw.req)
    if st1 ≠ OLAPStatus.success then (st1, dw1, w1)
    else
      let step2 : DeltaWriter × World :=
        if dw.req.need_gen_rollup then
          match tablet.schema_change with
          | none => (dw1, w1)
          | some (tid2, sh2) =>
            ({ dw1 with related_tablet := env.get_tablet tid2 sh2 },
             log_prepare env w1 (related_key dw.req tid2 sh2))
        else (dw1, w1)
      let dw2 := step2.1
      let w2 := step2.2
      let st2 := if env.check_dir_existed tablet.tablet_id then OLAPStatus.success
                 else env.create_dirs_st tablet.tablet_id
      let w3 := if env.check_dir_existed tablet.tablet_id then w2
                else if env.create_dirs_st tablet.tablet_id = OLAPStatus.success then
                  { w2 with created_dirs := w2.created_dirs ++ [tablet.tablet_id] }
                else w2
      if st2 ≠ OLAPStatus.success then (st2, dw2, w3)
      else
        match env.next_rowset_id with
        | none => (OLAPStatus.err_rowset_generate_id_failed, dw2, w3)
        | some rid =>
          let dw3 := { dw2 with rowset_writer := some { rowset_id := rid, rows := [] } }
          if env.rowset_writer_init_st ≠ OLAPStatus.success then
            (OLAPStatus.err_rowset_writer_init, dw3, w3)
          else
            (OLAPStatus.success,
             { dw3 with col_ids := build_col_ids tablet.columns dw.req.slots,
                        mem_table := some { rows := [] },
                        is_init := true }, w3)

/-- The lazy-initialization preamble shared by `write` and `close` (source
lines 147-152 and 166-171): run `init` only when `_is_init` is still false. -/
def ensure_init (env : Env) (dw : DeltaWriter) (w : World) :
    OLAPStatus × DeltaWriter × World :=
  if dw.is_init then (OLAPStatus.success, dw, w) else DeltaWriter.init env dw w

/-- The body of `DeltaWriter::write` after initialization (source lines
154-162): insert into the memtable, and if its memory usage reaches
`config::write_buffer_size`, flush it into the rowset writer and, only when
the flush succeeded, replace it with a fresh empty memtable (a failed flush
returns early, before the swap). -/
def DeltaWriter.write_body (env : Env) (dw : DeltaWriter) (w : World) (tuple : List Nat) :
    StepResult :=
  match dw.mem_table, dw.rowset_writer with
  | none, _ => .crash dw w
  | _, none => .crash dw w
  | some mt, some rw =>
    let mt1 := MemTable.insert dw.col_ids mt tuple
    let dw4 := { dw with mem_table := some mt1 }
    if env.write_buffer_size ≤ env.mem_usage mt1.rows then
      if env.mem_flush_st ≠ OLAPStatus.success then .ok env.mem_flush_st dw4 w
      else
        .ok OLAPStatus.success
          { dw4 with rowset_writer := some (flush_to rw mt1.rows),
                     mem_table := some { rows := [] } } w
    else .ok OLAPStatus.success dw4 w

/-- `DeltaWriter::write` (source lines 146-163): lazy init, then the body. -/
def DeltaWriter.write (env : Env) (dw : DeltaWriter) (w : World) (tuple : List Nat) :
    StepResult :=
  let step := ensure_init env dw w
  if step.1 ≠ OLAPStatus.success then .ok step.1 step.2.1 step.2.2
  else DeltaWriter.write_body env step.2.1 step.2.2 tuple

/-- The tail of `DeltaWriter::close` (source lines 216-228): append the
primary tablet's info, then the related tablet's if present, then set the
success flag and return success. -/
def close_tail (dw : DeltaWriter) (w : World) : StepResult :=
  match dw.tablet with
  | none => .crash dw w
  | some t =>
    let w4 := { w with tablet_infos := w.tablet_infos ++ [(t.tablet_id, t.schema_hash)] }
    let w5 := match dw.related_tablet with
      | none => w4
      | some rt => { w4 with tablet_infos := w4.tablet_infos ++ [(rt.tablet_id, rt.schema_hash)] }
    .ok OLAPStatus.success { dw with delta_written_success := true } w5

/-- The body of `DeltaWriter::close` after initialization (source lines
172-228): final memtable flush, build of the rowset, metadata save, and —
when a related
tablet is present — its pending-directory creation and the save of
`_related_rowset`'s metadata.  The source's `schema_version_convert` call is
commented out, so `res` stays success across that block and `_related_rowset`
is never assigned anywhere: when it is null its dereference
(`_related_rowset->rowset_id()`) is a crash. -/
def DeltaWriter.close_body (env : Env) (dw : DeltaWriter) (w : World) : StepResult :=
  match dw.mem_table, dw.rowset_writer with
    | none, _ => .crash dw w
    | _, none => .crash dw w
    | some mt, some rw =>
      if env.mem_close_st ≠ OLAPStatus.success then .ok env.mem_close_st dw w
      else
        let rw1 := flush_to rw mt.rows
        let rs : Rowset := { rowset_id := rw1.rowset_id, rows := rw1.rows }
        let dw5 := { dw with rowset_writer := some rw1, cur_rowset := some rs }
        if env.meta_save_st rs.rowset_id ≠ OLAPStatus.success then
          .ok OLAPStatus.err_rowset_save_failed dw5 w
        else
          let w6 := { w with saved := w.saved ++ [rs.rowset_id] }
          match dw5.related_tablet with
          | none => close_tail dw5 w6
          | some rt =>
            let st3 := if env.check_dir_existed rt.tablet_id then OLAPStatus.success
                       else env.create_dirs_st rt.tablet_id
            let w7 := if env.check_dir_existed rt.tablet_id then w6
                      else if env.create_dirs_st rt.tablet_id = OLAPStatus.success then
                        { w6 with created_dirs := w6.created_dirs ++ [rt.tablet_id] }
                      else w6
            if st3 ≠ OLAPStatus.success then .ok st3 dw5 w7
            else
              match dw5.related_rowset with
              | none => .crash dw5 w7
              | some rr =>
                if env.meta_save_st rr.rowset_id ≠ OLAPStatus.success then
                  .ok OLAPStatus.err_rowset_save_failed dw5 w7
                else
                  close_tail dw5 { w7 with saved := w7.saved ++ [rr.rowset_id] }

/-- `DeltaWriter::close` (source lines 165-229): lazy init, then the body. -/
def DeltaWriter.close (env : Env) (dw : DeltaWriter) (w : World) : StepResult :=
  let step := ensure_init env dw w
  if step.1 ≠ OLAPStatus.success then .ok step.1 step.2.1 step.2.2
  else DeltaWriter.close_body env step.2.1 step.2.2

/-- `DeltaWriter::_garbage_collection` (source lines 51-59): delete the
primary transaction, hand `_cur_rowset` to the collector, and — only when the
related-tablet pointer is non-null — the same for the related tablet. -/
def DeltaWriter.garbage_collection (dw : DeltaWriter) (w : World) : World :=
  let w1 := delete_txn w (primary_key dw.req)
  let w2 := add_unused_rowset w1 dw.cur_rowset
  match dw.related_tablet with
  | none => w2
  | some rt =>
    add_unused_rowset
      (delete_txn w2 (related_key dw.req rt.tablet_id rt.schema_hash))
      dw.related_rowset

/-- `DeltaWriter::~DeltaWriter` (source lines 40-49): unwind exactly when the
success flag is false.  The segment-group releases and `SAFE_DELETE` calls
free process memory only and have no effect on the modelled world. -/
def DeltaWriter.destructor (dw : DeltaWriter) (w : World) : World :=
  if dw.delta_written_success then w else DeltaWriter.garbage_collection dw w

/-- A sequence of `write` calls, stopping at the first failure or crash. -/
def DeltaWriter.write_all (env : Env) (dw : DeltaWriter) (w : World) :
    List (List Nat) → StepResult
  | [] => .ok OLAPStatus.success dw w
  | t :: ts =>
    match DeltaWriter.write env dw w t with
    | .ok st dw1 w1 =>
      if st = OLAPStatus.success then DeltaWriter.write_all env dw1 w1 ts
      else .ok st dw1 w1
    | .crash dw1 w1 => .crash dw1 w1

/-- The closing step of a full load: close only when the writes succeeded. -/
def run_tail (env : Env) (r : StepResult) : StepResult :=
  match r with
  | .ok st dw1 w1 =>
    if st = OLAPStatus.success then DeltaWriter.close env dw1 w1 else .ok st dw1 w1
  | .crash dw1 w1 => .crash dw1 w1

/-- One full load: open, a sequence of writes, then close (the close is
reached only when every write succeeded). -/
def run_load (env : Env) (req : WriteRequest) (w : World) (ts : List (List Nat)) :
    StepResult :=
  run_tail env (DeltaWriter.write_all env (open_writer req) w ts)

/-! Concrete scenarios used by the counterexamples and witnesses below. -/

/-- The empty world: fresh registry, no logs. -/
def w0 : World :=
  { txns := [], prepare_calls := [], deleted := [], unused := [], saved := [],
    created_dirs := [], tablet_infos := [] }

/-- A plain request for tablet (1, 10) with rollup tracking off. -/
def req_plain : WriteRequest :=
  { tablet_id := 1, schema_hash := 10, partition_id := 0, txn_id := 100,
    load_id := 7, need_gen_rollup := false, slots := [] }

/-- The same request with rollup tracking on. -/
def req_rollup : WriteRequest := { req_plain with need_gen_rollup := true }

/-- Tablet (1, 10) with no schema change in flight. -/
def tablet_plain : Tablet :=
  { tablet_id := 1, schema_hash := 10, columns := [], schema_change := none }

/-- Tablet (1, 10) with a schema change in flight towards (2, 20). -/
def tablet_changing : Tablet :=
  { tablet_id := 1, schema_hash := 10, columns := [], schema_change := some (2, 20) }

/-- The schema-change target tablet (2, 20). -/
def tablet_new : Tablet :=
  { tablet_id := 2, schema_hash := 20, columns := [], schema_change := none }

/-- All collaborators succeed; only tablet (1, 10) exists; the buffer
threshold is high enough that no rotation happens. -/
def env_ok : Env :=
  { get_tablet := fun tid sh => if tid = 1 ∧ sh = 10 then some tablet_plain else none,
    prepare_txn_st := fun _ => OLAPStatus.success,
    check_dir_existed := fun _ => true,
    create_dirs_st := fun _ => OLAPStatus.success,
    next_rowset_id := some 7,
    rowset_writer_init_st := OLAPStatus.success,
    mem_flush_st := OLAPStatus.success,
    mem_close_st := OLAPStatus.success,
    meta_save_st := fun _ => OLAPStatus.success,
    mem_usage := fun rows => rows.length,
    write_buffer_size := 1000 }

/-- Like `env_ok` but tablet (1, 10) is migrating to (2, 20) and the target
tablet exists. -/
def env_dual : Env :=
  { env_ok with get_tablet := fun tid sh =>
      if tid = 1 ∧ sh = 10 then some tablet_changing
      else if tid = 2 ∧ sh = 20 then some tablet_new else none }

/-- Like `env_dual` but the migration target tablet cannot be resolved. -/
def env_rel_missing : Env :=
  { env_ok with get_tablet := fun tid sh =>
      if tid = 1 ∧ sh = 10 then some tablet_changing else none }

/-- Like `env_dual` but the related tablet's transaction prepare fails. -/
def env_rel_prepare_fails : Env :=
  { env_dual with prepare_txn_st := fun k =>
      if k = related_key req_rollup 2 20 then OLAPStatus.err_other 7
      else OLAPStatus.success }

/-- No tablet exists at all. -/
def env_not_found : Env :=
  { env_ok with get_tablet := fun _ _ => none }

/-- Every insert reaches the (tiny) threshold and the flush step fails. -/
def env_flush_fails : Env :=
  { env_ok with mem_flush_st := OLAPStatus.err_other 42, write_buffer_size := 1 }

/-- A writer for `req_plain` that is already initialized (empty buffer, empty
rowset writer with id 7, one-column identity mapping). -/
def dw_ready : DeltaWriter :=
  { open_writer req_plain with
      tablet := some tablet_plain,
      rowset_writer := some { rowset_id := 7, rows := [] },
      mem_table := some { rows := [] },
      col_ids := [0],
      is_init := true }

/-- Like `env_ok` but with a threshold of one row, so every insert rotates. -/
def env_small : Env := { env_ok with write_buffer_size := 1 }

/-- Like `env_ok` but every transaction prepare fails. -/
def env_prep_fails : Env :=
  { env_ok with prepare_txn_st := fun _ => OLAPStatus.err_other 3 }

/-- The writer `dw_ready` after a successful `close` against `env_ok`. -/
def dw_done : DeltaWriter :=
  { dw_ready with cur_rowset := some { rowset_id := 7, rows := [] },
                  delta_written_success := true }

/-- The world after closing `dw_ready` against `env_ok` from `w0`. -/
def w_done : World := { w0 with saved := [7], tablet_infos := [(1, 10)] }

/-! Theorems. -/

/-- C9: the column index mapping built at initialization routes input-field
values into schema-column order.  For the schema `[a, b, c]` and the row
shape `[c, a, b]`, the record assembled through the mapping — read back in
schema order — is the original field values reindexed to schema order. -/
theorem c9_col_ids_route_fields (va vb vc : Nat) :
    MemTable.insert (build_col_ids ["a", "b", "c"] ["c", "a", "b"])
        { rows := [] } [vc, va, vb] =
      { rows := [[va, vb, vc]] } := by
  have h : build_col_ids ["a", "b", "c"] ["c", "a", "b"] = [1, 2, 0] := by decide
  simp [MemTable.insert, h, List.getD]

/-- C6 (code bug witness): in the dual-write scenario — tablet (1, 10)
migrating to the existing tablet (2, 20), every collaborator succeeding —
`close` persists the primary rowset's metadata and then, instead of invoking
the schema-change conversion (the call is commented out in the source) and
persisting a related artifact, dereferences the never-assigned null
`_related_rowset` and crashes. -/
theorem c6_related_save_null_deref :
    (DeltaWriter.close env_dual (open_writer req_rollup) w0).is_crash = true ∧
    (DeltaWriter.close env_dual (open_writer req_rollup) w0).world.saved = [7] ∧
    (DeltaWriter.close env_dual (open_writer req_rollup) w0).writer.related_tablet =
      some tablet_new ∧
    (DeltaWriter.close env_dual (open_writer req_rollup) w0).writer.related_rowset =
      none := by decide

/-- C1 (counterexample): with rollup tracking on, a migration in flight
towards (2, 20), and the related-tablet lookup failing, the first `write`
succeeds and prepares the related transaction in the registry; `close` is
never called, yet teardown leaves the related transaction registered —
refuting the claim that teardown unregisters every prepared transaction. -/
theorem c1_counterexample :
    (DeltaWriter.write env_rel_missing (open_writer req_rollup) w0 [5]).ok_st =
      some OLAPStatus.success ∧
    related_key req_rollup 2 20 ∈
      (DeltaWriter.write env_rel_missing (open_writer req_rollup) w0 [5]).world.txns ∧
    (DeltaWriter.write env_rel_missing
        (open_writer req_rollup) w0 [5]).writer.delta_written_success = false ∧
    related_key req_rollup 2 20 ∈
      (DeltaWriter.destructor
        (DeltaWriter.write env_rel_missing (open_writer req_rollup) w0 [5]).writer
        (DeltaWriter.write env_rel_missing (open_writer req_rollup) w0 [5]).world).txns := by
  decide

/-- C2 (counterexample): with no tablet resolvable, `write` fails with the
NotFound status and nothing is prepared, but teardown is not a no-op: the
destructor still issues a registry delete for the primary key (and hands a
null artifact pointer to the collector). -/
theorem c2_counterexample :
    (DeltaWriter.write env_not_found (open_writer req_plain) w0 [5]).ok_st =
      some OLAPStatus.err_table_not_found ∧
    (DeltaWriter.write env_not_found (open_writer req_plain) w0 [5]).world.txns = [] ∧
    (DeltaWriter.destructor (open_writer req_plain) w0).deleted =
      [primary_key req_plain] ∧
    (DeltaWriter.destructor (open_writer req_plain) w0).unused = [none] := by decide

/-- C5 (counterexample): with the rotation threshold at one row and the flush
step failing with status 42, `write` surfaces the flush error but skips the
buffer swap: the memtable afterwards still holds the freshly inserted row, so
the next write targets the old full buffer, not a fresh empty one. -/
theorem c5_counterexample :
    DeltaWriter.write env_flush_fails dw_ready w0 [9] =
      .ok (OLAPStatus.err_other 42)
        { dw_ready with mem_table := some { rows := [[9]] } } w0 ∧
    some ({ rows := [[9]] } : MemTable) ≠ some ({ rows := [] } : MemTable) := by decide

/-- C8 (counterexample): with a migration in flight and the related tablet's
transaction prepare failing with status 7, initialization nevertheless
returns success — the related prepare's status is ignored — and the related
transaction is absent from the registry. -/
theorem c8_counterexample :
    (DeltaWriter.init env_rel_prepare_fails (open_writer req_rollup) w0).1 =
      OLAPStatus.success ∧
    env_rel_prepare_fails.prepare_txn_st (related_key req_rollup 2 20) =
      OLAPStatus.err_other 7 ∧
    related_key req_rollup 2 20 ∉
      (DeltaWriter.init env_rel_prepare_fails (open_writer req_rollup) w0).2.2.txns := by
  decide

theorem write_of_inited (env : Env) (dw : DeltaWriter) (w : World) (t : List Nat)
    (h : dw.is_init = true) :
    DeltaWriter.write env dw w t = DeltaWriter.write_body env dw w t := by
  unfold DeltaWriter.write ensure_init
  simp [h]

theorem close_of_inited (env : Env) (dw : DeltaWriter) (w : World)
    (h : dw.is_init = true) :
    DeltaWriter.close env dw w = DeltaWriter.close_body env dw w := by
  unfold DeltaWriter.close ensure_init
  simp [h]

/-- C4: on an initialized writer whose flush step succeeds, `write` performs
a buffer rotation exactly when the memtable's memory usage after the insert
reaches the configured threshold: at or above the threshold the superseded
buffer is flushed into the rowset writer and replaced by a fresh empty
memtable (so the subsequent memory-usage reading is that of the empty
buffer); below the threshold no rotation happens and the buffer keeps the
inserted row. -/
theorem c4_rotation_exactly_at_threshold (env : Env) (dw : DeltaWriter) (w : World)
    (t : List Nat) (mt : MemTable) (rw : RowsetWriter)
    (hi : dw.is_init = true) (hmt : dw.mem_table = some mt)
    (hrw : dw.rowset_writer = some rw)
    (hf : env.mem_flush_st = OLAPStatus.success) :
    (env.write_buffer_size ≤ env.mem_usage (MemTable.insert dw.col_ids mt t).rows →
      DeltaWriter.write env dw w t =
        .ok OLAPStatus.success
          { dw with
              mem_table := some { rows := [] },
              rowset_writer := some (flush_to rw (MemTable.insert dw.col_ids mt t).rows) }
          w) ∧
    (env.mem_usage (MemTable.insert dw.col_ids mt t).rows < env.write_buffer_size →
      DeltaWriter.write env dw w t =
        .ok OLAPStatus.success
          { dw with mem_table := some (MemTable.insert dw.col_ids mt t) } w) := by
  rw [write_of_inited env dw w t hi]
  unfold DeltaWriter.write_body
  constructor
  · intro hthr
    simp [hmt, hrw, hf, hthr]
  · intro hthr
    simp [hmt, hrw, Nat.not_le_of_lt hthr]

/-- C4 witness: with the threshold at one row, the write of `[9]` on the
initialized writer rotates the buffer. -/
theorem c4_witness :
    DeltaWriter.write env_small dw_ready w0 [9] =
      .ok OLAPStatus.success
        { dw_ready with
            mem_table := some { rows := [] },
            rowset_writer := some (flush_to { rowset_id := 7, rows := [] }
              (MemTable.insert dw_ready.col_ids { rows := [] } [9]).rows) }
        w0 :=
  (c4_rotation_exactly_at_threshold env_small dw_ready w0 [9]
    { rows := [] } { rowset_id := 7, rows := [] }
    (by decide) (by decide) (by decide) (by decide)).1 (by decide)

/-- C5 (amended): if the flush step of a rotation errors, `write` surfaces
the flush error to the caller, but the buffer swap is skipped: the
superseded buffer — including the freshly inserted row — remains the current
memtable, so the next write targets it rather than a fresh empty buffer. -/
theorem c5_flush_error_keeps_old_buffer (env : Env) (dw : DeltaWriter) (w : World)
    (t : List Nat) (mt : MemTable) (rw : RowsetWriter) (e : OLAPStatus)
    (hi : dw.is_init = true) (hmt : dw.mem_table = some mt)
    (hrw : dw.rowset_writer = some rw)
    (he : env.mem_flush_st = e) (hne : e ≠ OLAPStatus.success)
    (hthr : env.write_buffer_size ≤ env.mem_usage (MemTable.insert dw.col_ids mt t).rows) :
    DeltaWriter.write env dw w t =
      .ok e { dw with mem_table := some (MemTable.insert dw.col_ids mt t) } w := by
  subst he
  rw [write_of_inited env dw w t hi]
  unfold DeltaWriter.write_body
  simp [hmt, hrw, hthr, hne]

/-- C5 witness: the counterexample scenario run through the amended theorem. -/
theorem c5_witness :
    DeltaWriter.write env_flush_fails dw_ready w0 [9] =
      .ok (OLAPStatus.err_other 42)
        { dw_ready with
            mem_table := some (MemTable.insert dw_ready.col_ids { rows := [] } [9]) }
        w0 :=
  c5_flush_error_keeps_old_buffer env_flush_fails dw_ready w0 [9]
    { rows := [] } { rowset_id := 7, rows := [] } (OLAPStatus.err_other 42)
    (by decide) (by decide) (by decide) (by decide) (by decide) (by decide)

/-- C8 (amended): every checked fallible step of initialization returns
immediately on its first failure — shown here for the primary transaction
prepare, which returns the prepare error with nothing allocated — but the
transaction prepare against the related tablet has its return status
ignored: when a migration is detected and that prepare fails while every
checked step succeeds, initialization continues and returns success, leaving
the related transaction unregistered (the registry gains only the primary
key). -/
theorem c8_first_failure_except_related_prepare :
    (∀ (req : WriteRequest) (env : Env) (w : World) (tablet : Tablet) (e : OLAPStatus),
      env.get_tablet req.tablet_id req.schema_hash = some tablet →
      env.prepare_txn_st (primary_key req) = e → e ≠ OLAPStatus.success →
      DeltaWriter.init env (open_writer req) w =
        (e, { open_writer req with tablet := some tablet },
         log_prepare env w (primary_key req))) ∧
    (∀ (req : WriteRequest) (env : Env) (w : World) (tablet : Tablet)
        (tid2 sh2 rid : Nat),
      req.need_gen_rollup = true →
      env.get_tablet req.tablet_id req.schema_hash = some tablet →
      tablet.schema_change = some (tid2, sh2) →
      env.prepare_txn_st (primary_key req) = OLAPStatus.success →
      env.prepare_txn_st (related_key req tid2 sh2) ≠ OLAPStatus.success →
      env.check_dir_existed tablet.tablet_id = true →
      env.next_rowset_id = some rid →
      env.rowset_writer_init_st = OLAPStatus.success →
      (DeltaWriter.init env (open_writer req) w).1 = OLAPStatus.success ∧
      (DeltaWriter.init env (open_writer req) w).2.2 =
        { w with
            prepare_calls :=
              w.prepare_calls ++ [primary_key req, related_key req tid2 sh2],
            txns := w.txns ++ [primary_key req] }) := by
  constructor
  · intro req env w tablet e hget hprep hne
    unfold DeltaWriter.init
    simp [open_writer, hget, hprep, hne]
  · intro req env w tablet tid2 sh2 rid hroll hget hch hprep hrel hdir hid hwr
    unfold DeltaWriter.init
    simp [open_writer, log_prepare, hget, hch, hprep, hrel, hroll, hdir, hid, hwr]

/-- C8 witness: the first part at an environment where every prepare fails
with status 3; the second at `env_rel_prepare_fails`, where only the related
prepare fails (with status 7) and initialization still returns success. -/
theorem c8_witness :
    (DeltaWriter.init env_prep_fails (open_writer req_plain) w0 =
      (OLAPStatus.err_other 3,
       { open_writer req_plain with tablet := some tablet_plain },
       log_prepare env_prep_fails w0 (primary_key req_plain))) ∧
    ((DeltaWriter.init env_rel_prepare_fails (open_writer req_rollup) w0).1 =
      OLAPStatus.success ∧
     (DeltaWriter.init env_rel_prepare_fails (open_writer req_rollup) w0).2.2 =
      { w0 with
          prepare_calls :=
            w0.prepare_calls ++ [primary_key req_rollup, related_key req_rollup 2 20],
          txns := w0.txns ++ [primary_key req_rollup] }) :=
  ⟨c8_first_failure_except_related_prepare.1 req_plain env_prep_fails w0 tablet_plain
      (OLAPStatus.err_other 3) (by decide) (by decide) (by decide),
   c8_first_failure_except_related_prepare.2 req_rollup env_rel_prepare_fails w0
      tablet_changing 2 20 7 (by decide) (by decide) (by decide) (by decide)
      (by decide) (by decide) (by decide) (by decide)⟩

theorem init_ok (req : WriteRequest) (env : Env) (w : World) (tablet : Tablet)
    (rid : Nat)
    (hget : env.get_tablet req.tablet_id req.schema_hash = some tablet)
    (hprep : env.prepare_txn_st (primary_key req) = OLAPStatus.success)
    (hroll : req.need_gen_rollup = false)
    (hdir : env.check_dir_existed tablet.tablet_id = true)
    (hid : env.next_rowset_id = some rid)
    (hwr : env.rowset_writer_init_st = OLAPStatus.success) :
    DeltaWriter.init env (open_writer req) w =
      (OLAPStatus.success,
       { open_writer req with
           tablet := some tablet,
           rowset_writer := some { rowset_id := rid, rows := [] },
           mem_table := some { rows := [] },
           col_ids := build_col_ids tablet.columns req.slots,
           is_init := true },
       { w with
           prepare_calls := w.prepare_calls ++ [primary_key req],
           txns := w.txns ++ [primary_key req] }) := by
  unfold DeltaWriter.init
  simp [open_writer, log_prepare, hget, hprep, hroll, hdir, hid, hwr]

/-- C10: calling `close` as the very first operation on a freshly opened
coordinator performs full initialization (the transaction is prepared and an
artifact id allocated), flushes the empty buffer, builds and persists an
artifact with zero rows, and returns success with exactly one primary
tablet-info entry, when every external collaborator succeeds and no
migration is tracked. -/
theorem c10_close_without_write (req : WriteRequest) (env : Env) (w : World)
    (tablet : Tablet) (rid : Nat)
    (hget : env.get_tablet req.tablet_id req.schema_hash = some tablet)
    (hprep : env.prepare_txn_st (primary_key req) = OLAPStatus.success)
    (hroll : req.need_gen_rollup = false)
    (hdir : env.check_dir_existed tablet.tablet_id = true)
    (hid : env.next_rowset_id = some rid)
    (hwr : env.rowset_writer_init_st = OLAPStatus.success)
    (hcl : env.mem_close_st = OLAPStatus.success)
    (hsv : env.meta_save_st rid = OLAPStatus.success) :
    DeltaWriter.close env (open_writer req) w =
      .ok OLAPStatus.success
        { open_writer req with
            tablet := some tablet,
            rowset_writer := some { rowset_id := rid, rows := [] },
            mem_table := some { rows := [] },
            col_ids := build_col_ids tablet.columns req.slots,
            is_init := true,
            cur_rowset := some { rowset_id := rid, rows := [] },
            delta_written_success := true }
        { w with
            prepare_calls := w.prepare_calls ++ [primary_key req],
            txns := w.txns ++ [primary_key req],
            saved := w.saved ++ [rid],
            tablet_infos := w.tablet_infos ++ [(tablet.tablet_id, tablet.schema_hash)] } := by
  unfold DeltaWriter.close ensure_init
  rw [init_ok req env w tablet rid hget hprep hroll hdir hid hwr]
  unfold DeltaWriter.close_body close_tail
  simp [open_writer, flush_to, hcl, hsv]

/-- C10 witness: the concrete plain scenario, closed with zero writes. -/
theorem c10_witness :
    DeltaWriter.close env_ok (open_writer req_plain) w0 =
      .ok OLAPStatus.success
        { open_writer req_plain with
            tablet := some tablet_plain,
            rowset_writer := some { rowset_id := 7, rows := [] },
            mem_table := some { rows := [] },
            col_ids := build_col_ids tablet_plain.columns req_plain.slots,
            is_init := true,
            cur_rowset := some { rowset_id := 7, rows := [] },
            delta_written_success := true }
        { w0 with
            prepare_calls := w0.prepare_calls ++ [primary_key req_plain],
            txns := w0.txns ++ [primary_key req_plain],
            saved := w0.saved ++ [7],
            tablet_infos :=
              w0.tablet_infos ++ [(tablet_plain.tablet_id, tablet_plain.schema_hash)] } :=
  c10_close_without_write req_plain env_ok w0 tablet_plain 7 (by decide) (by decide)
    (by decide) (by decide) (by decide) (by decide) (by decide) (by decide)

/-- C2 (amended): when the request references a tablet id absent from the
tablet directory, `write` and `close` fail with the NotFound status, no
transaction is prepared in the registry, and teardown leaves the registry
contents unchanged — though it is not call-free: it still issues one
idempotent registry delete for the primary key (removing nothing) and hands
a null artifact pointer to the unused-artifact collector. -/
theorem c2_not_found_no_preparation (req : WriteRequest) (env : Env) (w : World)
    (t : List Nat)
    (hget : env.get_tablet req.tablet_id req.schema_hash = none)
    (hmem : primary_key req ∉ w.txns) :
    DeltaWriter.write env (open_writer req) w t =
      .ok OLAPStatus.err_table_not_found (open_writer req) w ∧
    DeltaWriter.close env (open_writer req) w =
      .ok OLAPStatus.err_table_not_found (open_writer req) w ∧
    (DeltaWriter.destructor (open_writer req) w).txns = w.txns ∧
    (DeltaWriter.destructor (open_writer req) w).deleted =
      w.deleted ++ [primary_key req] ∧
    (DeltaWriter.destructor (open_writer req) w).unused = w.unused ++ [none] := by
  have hinit : DeltaWriter.init env (open_writer req) w =
      (OLAPStatus.err_table_not_found, open_writer req, w) := by
    unfold DeltaWriter.init
    simp [open_writer, hget]
  have h0 : (open_writer req).is_init = false := rfl
  refine ⟨?_, ?_, ?_, ?_, ?_⟩
  · unfold DeltaWriter.write ensure_init
    simp [h0, hinit]
  · unfold DeltaWriter.close ensure_init
    simp [h0, hinit]
  · unfold DeltaWriter.destructor DeltaWriter.garbage_collection
    simp [open_writer, delete_txn, add_unused_rowset]
    intro a ha h
    exact hmem (h ▸ ha)
  · unfold DeltaWriter.destructor DeltaWriter.garbage_collection
    simp [open_writer, delete_txn, add_unused_rowset]
  · unfold DeltaWriter.destructor DeltaWriter.garbage_collection
    simp [open_writer, delete_txn, add_unused_rowset]

/-- C2 witness: the concrete missing-tablet scenario. -/
theorem c2_witness :
    DeltaWriter.write env_not_found (open_writer req_plain) w0 [5] =
      .ok OLAPStatus.err_table_not_found (open_writer req_plain) w0 ∧
    DeltaWriter.close env_not_found (open_writer req_plain) w0 =
      .ok OLAPStatus.err_table_not_found (open_writer req_plain) w0 ∧
    (DeltaWriter.destructor (open_writer req_plain) w0).txns = w0.txns ∧
    (DeltaWriter.destructor (open_writer req_plain) w0).deleted =
      w0.deleted ++ [primary_key req_plain] ∧
    (DeltaWriter.destructor (open_writer req_plain) w0).unused = w0.unused ++ [none] :=
  c2_not_found_no_preparation req_plain env_not_found w0 [5] (by decide) (by decide)

theorem write_body_frame (env : Env) (dw : DeltaWriter) (w : World) (t : List Nat) :
    (DeltaWriter.write_body env dw w t).world = w ∧
    (DeltaWriter.write_body env dw w t).writer.is_init = dw.is_init := by
  unfold DeltaWriter.write_body
  rcases hmt : dw.mem_table with _ | mt <;>
    rcases hrw : dw.rowset_writer with _ | rw <;>
    simp [hmt, hrw, StepResult.world, StepResult.writer] <;>
    split_ifs <;>
    simp [StepResult.world, StepResult.writer]

theorem write_all_frame (env : Env) (ts : List (List Nat)) :
    ∀ (dw : DeltaWriter) (w : World), dw.is_init = true →
      (DeltaWriter.write_all env dw w ts).world = w ∧
      (DeltaWriter.write_all env dw w ts).writer.is_init = true := by
  induction ts with
  | nil =>
    intro dw w h
    simp [DeltaWriter.write_all, StepResult.world, StepResult.writer, h]
  | cons t ts ih =>
    intro dw w h
    unfold DeltaWriter.write_all
    rw [write_of_inited env dw w t h]
    have hf := write_body_frame env dw w t
    cases hwb : DeltaWriter.write_body env dw w t with
    | ok st dw1 w1 =>
      rw [hwb] at hf
      simp [StepResult.world, StepResult.writer] at hf
      obtain ⟨hw1, hi1⟩ := hf
      by_cases hst : st = OLAPStatus.success
      · simp only [hst, if_pos rfl]
        rw [hw1]
        exact ih dw1 w (hi1.trans h)
      · simp [hst, StepResult.world, StepResult.writer]
        exact ⟨hw1, hi1.trans h⟩
    | crash dw1 w1 =>
      rw [hwb] at hf
      simp [StepResult.world, StepResult.writer] at hf
      exact ⟨hf.1, hf.2.trans h⟩

theorem write_body_ok (env : Env) (dw : DeltaWriter) (w : World) (t : List Nat)
    (mt : MemTable) (rw : RowsetWriter)
    (hmt : dw.mem_table = some mt) (hrw : dw.rowset_writer = some rw)
    (hfl : env.mem_flush_st = OLAPStatus.success) :
    ∃ dw1, DeltaWriter.write_body env dw w t = .ok OLAPStatus.success dw1 w := by
  unfold DeltaWriter.write_body
  simp only [hmt, hrw]
  by_cases hthr : env.write_buffer_size ≤
      env.mem_usage (MemTable.insert dw.col_ids mt t).rows
  · simp [hthr, hfl]
  · simp [hthr]

theorem close_body_registry_frame (env : Env) (dw : DeltaWriter) (w : World) :
    (DeltaWriter.close_body env dw w).world.prepare_calls = w.prepare_calls ∧
    (DeltaWriter.close_body env dw w).world.txns = w.txns := by
  unfold DeltaWriter.close_body close_tail
  rcases hmt : dw.mem_table with _ | mt <;>
    rcases hrw : dw.rowset_writer with _ | rw <;>
    rcases hrel : dw.related_tablet with _ | rt <;>
    rcases htab : dw.tablet with _ | t <;>
    rcases hrr : dw.related_rowset with _ | rr <;>
    simp [hmt, hrw, hrel, htab, hrr, StepResult.world] <;>
    split_ifs <;>
    simp [StepResult.world]

theorem run_tail_registry_frame (env : Env) (dw : DeltaWriter) (w : World)
    (ts : List (List Nat)) (hinit : dw.is_init = true) :
    (run_tail env (DeltaWriter.write_all env dw w ts)).world.prepare_calls =
      w.prepare_calls := by
  have hf := write_all_frame env ts dw w hinit
  cases hwa : DeltaWriter.write_all env dw w ts with
  | ok st dw1 w1 =>
    rw [hwa] at hf
    simp [StepResult.world, StepResult.writer] at hf
    obtain ⟨hw1, hi1⟩ := hf
    dsimp only [run_tail]
    by_cases hst : st = OLAPStatus.success
    · subst hst
      rw [if_pos rfl, close_of_inited env dw1 w1 hi1,
        (close_body_registry_frame env dw1 w1).1, hw1]
    · rw [if_neg hst]
      simp only [StepResult.world]
      exact congrArg World.prepare_calls hw1
  | crash dw1 w1 =>
    rw [hwa] at hf
    simp [StepResult.world, StepResult.writer] at hf
    dsimp only [run_tail, StepResult.world]
    exact congrArg World.prepare_calls hf.1

/-- C3: for a freshly opened coordinator and any sequence of writes followed
by close (with every collaborator succeeding and no rollup tracked), the
transaction-prepare call of initialization is issued exactly once over the
whole run: the first operation triggers initialization, and every later
`write` or `close` on the same instance skips it, so the prepare-call log
ends up holding the coordinator's transaction key exactly once. -/
theorem c3_initialization_exactly_once (req : WriteRequest) (env : Env) (w : World)
    (ts : List (List Nat)) (tablet : Tablet) (rid : Nat)
    (hget : env.get_tablet req.tablet_id req.schema_hash = some tablet)
    (hprep : env.prepare_txn_st (primary_key req) = OLAPStatus.success)
    (hroll : req.need_gen_rollup = false)
    (hdir : env.check_dir_existed tablet.tablet_id = true)
    (hid : env.next_rowset_id = some rid)
    (hwr : env.rowset_writer_init_st = OLAPStatus.success)
    (hfl : env.mem_flush_st = OLAPStatus.success)
    (hpc : w.prepare_calls = []) :
    (run_load env req w ts).world.prepare_calls.count (primary_key req) = 1 := by
  have hin := init_ok req env w tablet rid hget hprep hroll hdir hid hwr
  have h0 : (open_writer req).is_init = false := rfl
  cases ts with
  | nil =>
    unfold run_load
    simp only [DeltaWriter.write_all]
    dsimp only [run_tail]
    rw [if_pos rfl]
    unfold DeltaWriter.close ensure_init
    simp only [h0, Bool.false_eq_true, if_false, hin]
    simp only [ne_eq, not_true_eq_false, if_false, reduceIte]
    rw [(close_body_registry_frame env _ _).1]
    simp [hpc]
  | cons t ts =>
    have hw1 : DeltaWriter.write env (open_writer req) w t =
        DeltaWriter.write_body env
          { open_writer req with
              tablet := some tablet,
              rowset_writer := some { rowset_id := rid, rows := [] },
              mem_table := some { rows := [] },
              col_ids := build_col_ids tablet.columns req.slots,
              is_init := true }
          { w with prepare_calls := w.prepare_calls ++ [primary_key req],
                   txns := w.txns ++ [primary_key req] } t := by
      unfold DeltaWriter.write ensure_init
      simp only [h0, Bool.false_eq_true, if_false, hin]
      simp only [ne_eq, not_true_eq_false, if_false, reduceIte]
    obtain ⟨dw1, hwb⟩ := write_body_ok env
      { open_writer req with
          tablet := some tablet,
          rowset_writer := some { rowset_id := rid, rows := [] },
          mem_table := some { rows := [] },
          col_ids := build_col_ids tablet.columns req.slots,
          is_init := true }
      { w with prepare_calls := w.prepare_calls ++ [primary_key req],
               txns := w.txns ++ [primary_key req] }
      t { rows := [] } { rowset_id := rid, rows := [] } rfl rfl hfl
    have hstep : DeltaWriter.write_all env (open_writer req) w (t :: ts) =
        DeltaWriter.write_all env dw1
          { w with prepare_calls := w.prepare_calls ++ [primary_key req],
                   txns := w.txns ++ [primary_key req] } ts := by
      simp only [DeltaWriter.write_all]
      rw [hw1, hwb]
      simp
    have hi1 : dw1.is_init = true := by
      have hf := write_body_frame env
        { open_writer req with
            tablet := some tablet,
            rowset_writer := some { rowset_id := rid, rows := [] },
            mem_table := some { rows := [] },
            col_ids := build_col_ids tablet.columns req.slots,
            is_init := true }
        { w with prepare_calls := w.prepare_calls ++ [primary_key req],
                 txns := w.txns ++ [primary_key req] } t
      rw [hwb] at hf
      simpa [StepResult.writer] using hf.2
    unfold run_load
    rw [hstep, run_tail_registry_frame env dw1 _ ts hi1]
    simp [hpc]

/-- C3 witness: three writes then close against the all-success environment
prepare the transaction exactly once. -/
theorem c3_witness :
    (run_load env_ok req_plain w0 [[1], [2], [3]]).world.prepare_calls.count
      (primary_key req_plain) = 1 :=
  c3_initialization_exactly_once req_plain env_ok w0 [[1], [2], [3]] tablet_plain 7
    (by decide) (by decide) (by decide) (by decide) (by decide) (by decide)
    (by decide) (by decide)

set_option maxHeartbeats 1000000 in
theorem init_world_frame (env : Env) (dw : DeltaWriter) (w : World) :
    (DeltaWriter.init env dw w).2.2.tablet_infos = w.tablet_infos := by
  cases hget : env.get_tablet dw.req.tablet_id dw.req.schema_hash with
  | none => simp [DeltaWriter.init, hget]
  | some t =>
    rcases hch : t.schema_change with _ | ⟨tid2, sh2⟩ <;>
      rcases hid : env.next_rowset_id with _ | rid <;>
      simp only [DeltaWriter.init, hget, hch, hid, log_prepare] <;>
      split_ifs <;>
      simp

theorem close_body_ok_success (env : Env) (dw : DeltaWriter) (w : World)
    (dw' : DeltaWriter) (w' : World)
    (h : DeltaWriter.close_body env dw w = .ok OLAPStatus.success dw' w') :
    dw'.delta_written_success = true ∧
    dw'.related_tablet = dw.related_tablet ∧
    ∃ t, dw'.tablet = some t ∧
      w'.tablet_infos = w.tablet_infos ++ ((t.tablet_id, t.schema_hash) ::
        (match dw.related_tablet with
         | none => []
         | some rt => [(rt.tablet_id, rt.schema_hash)])) := by
  rcases hmt : dw.mem_table with _ | mt <;>
    rcases hrw : dw.rowset_writer with _ | rw <;>
    rcases hrel : dw.related_tablet with _ | rt <;>
    rcases htab : dw.tablet with _ | t <;>
    rcases hrr : dw.related_rowset with _ | rr <;>
    simp only [DeltaWriter.close_body, close_tail, hmt, hrw, hrel, htab, hrr] at h <;>
    first
      | (split_ifs at h <;>
          first
            | (simp_all [List.append_assoc]; done)
            | (obtain ⟨hdw, hw⟩ := h
               subst hdw
               subst hw
               simp [List.append_assoc])
            | (rw [StepResult.ok.injEq] at h
               obtain ⟨-, hdw, hw⟩ := h
               subst hdw
               subst hw
               simp [List.append_assoc]))
      | (simp_all [List.append_assoc]; done)

theorem close_success_shape (env : Env) (dw : DeltaWriter) (w : World)
    (dw' : DeltaWriter) (w' : World)
    (h : DeltaWriter.close env dw w = .ok OLAPStatus.success dw' w') :
    dw'.delta_written_success = true ∧
    ∃ t, dw'.tablet = some t ∧
      w'.tablet_infos = w.tablet_infos ++ ((t.tablet_id, t.schema_hash) ::
        (match dw'.related_tablet with
         | none => []
         | some rt => [(rt.tablet_id, rt.schema_hash)])) := by
  unfold DeltaWriter.close ensure_init at h
  cases hini : dw.is_init with
  | true =>
    simp only [hini, if_true] at h
    simp only [ne_eq, not_true_eq_false, if_false, reduceIte] at h
    obtain ⟨hflag, hrel, t, htab, hinfos⟩ := close_body_ok_success env dw w dw' w' h
    refine ⟨hflag, t, htab, ?_⟩
    rw [hrel, hinfos]
  | false =>
    simp only [hini, Bool.false_eq_true, if_false] at h
    by_cases hst : (DeltaWriter.init env dw w).1 = OLAPStatus.success
    · rw [if_neg (not_not_intro hst)] at h
      obtain ⟨hflag, hrel, t, htab, hinfos⟩ :=
        close_body_ok_success env (DeltaWriter.init env dw w).2.1
          (DeltaWriter.init env dw w).2.2 dw' w' h
      refine ⟨hflag, t, htab, ?_⟩
      rw [hrel, hinfos, init_world_frame env dw w]
    · rw [if_pos hst] at h
      simp only [StepResult.ok.injEq] at h
      exact absurd h.1 hst

/-- C7: whenever `close` returns success, it has appended to the caller's
output collection exactly one tablet-info record (tablet id, schema hash)
for the primary tablet, followed by exactly one more for the related tablet
if and only if a related tablet is present, and it has set the success
flag. -/
theorem c7_success_output_records (env : Env) (dw : DeltaWriter) (w : World)
    (dw' : DeltaWriter) (w' : World)
    (h : DeltaWriter.close env dw w = .ok OLAPStatus.success dw' w') :
    dw'.delta_written_success = true ∧
    ∃ t, dw'.tablet = some t ∧
      w'.tablet_infos = w.tablet_infos ++ ((t.tablet_id, t.schema_hash) ::
        (match dw'.related_tablet with
         | none => []
         | some rt => [(rt.tablet_id, rt.schema_hash)])) :=
  close_success_shape env dw w dw' w' h

/-- C7 witness: closing the initialized plain writer appends exactly the
primary entry (1, 10) and sets the success flag. -/
theorem c7_witness :
    dw_done.delta_written_success = true ∧
    ∃ t, dw_done.tablet = some t ∧
      w_done.tablet_infos = w0.tablet_infos ++ ((t.tablet_id, t.schema_hash) ::
        (match dw_done.related_tablet with
         | none => []
         | some rt => [(rt.tablet_id, rt.schema_hash)])) :=
  c7_success_output_records env_ok dw_ready w0 dw_done w_done (by decide)

/-- C1 (amended): after `close` returns success the success flag is true and
teardown performs no unwind at all; when the flag is false (close failed or
was never called), teardown unregisters the primary tablet's transaction
and, when the related-tablet pointer is non-null — that is, when the related
tablet's lookup succeeded during initialization — the related tablet's
transaction, and hands the built-but-uncommitted artifact pointers to the
unused-artifact collector.  (A related transaction prepared while the
related-tablet lookup failed is the one case the unwind misses; see the
counterexample.) -/
theorem c1_success_flag_and_teardown_unwind :
    (∀ (env : Env) (dw : DeltaWriter) (w : World) (dw' : DeltaWriter) (w' : World),
      DeltaWriter.close env dw w = .ok OLAPStatus.success dw' w' →
        dw'.delta_written_success = true ∧
        ∀ w2, DeltaWriter.destructor dw' w2 = w2) ∧
    (∀ (dw : DeltaWriter) (w : World), dw.delta_written_success = false →
      primary_key dw.req ∉ (DeltaWriter.destructor dw w).txns ∧
      dw.cur_rowset ∈ (DeltaWriter.destructor dw w).unused ∧
      ∀ rt, dw.related_tablet = some rt →
        related_key dw.req rt.tablet_id rt.schema_hash ∉
          (DeltaWriter.destructor dw w).txns ∧
        dw.related_rowset ∈ (DeltaWriter.destructor dw w).unused) := by
  constructor
  · intro env dw w dw' w' h
    have hflag := (close_success_shape env dw w dw' w' h).1
    refine ⟨hflag, fun w2 => ?_⟩
    unfold DeltaWriter.destructor
    rw [hflag]
    simp
  · intro dw w hflag
    unfold DeltaWriter.destructor DeltaWriter.garbage_collection
    rw [hflag]
    rcases hrel : dw.related_tablet with _ | rt <;>
      simp only [Bool.false_eq_true, if_false, hrel] <;>
      simp [delete_txn, add_unused_rowset, List.mem_filter]

/-- C1 witness: the first part at the concrete successful close of
`dw_ready`; the second at the fresh writer, whose success flag is false. -/
theorem c1_witness :
    (dw_done.delta_written_success = true ∧
      ∀ w2, DeltaWriter.destructor dw_done w2 = w2) ∧
    (primary_key (open_writer req_plain).req ∉
        (DeltaWriter.destructor (open_writer req_plain) w0).txns ∧
      (open_writer req_plain).cur_rowset ∈
        (DeltaWriter.destructor (open_writer req_plain) w0).unused ∧
      ∀ rt, (open_writer req_plain).related_tablet = some rt →
        related_key (open_writer req_plain).req rt.tablet_id rt.schema_hash ∉
          (DeltaWriter.destructor (open_writer req_plain) w0).txns ∧
        (open_writer req_plain).related_rowset ∈
          (DeltaWriter.destructor (open_writer req_plain) w0).unused) :=
  ⟨c1_success_flag_and_teardown_unwind.1 env_ok dw_ready w0 dw_done w_done (by decide),
   c1_success_flag_and_teardown_unwind.2 (open_writer req_plain) w0 (by decide)⟩

end DorisDW
